import Mathlib

/-!
Verification development for `proj2_nps.py`, an interactive national-parks
scraper built around a cache-aside fetch pipeline.

The embedding models:
* the in-memory cache `CACHE_DICT` as an association list from string keys
  to the JSON-serializable values the program stores (`PyVal`);
* the four cache-aside operations `build_state_url_dict`,
  `get_site_instance`, `get_sites_for_state`, `get_nearby_places`, each
  parameterized by deterministic oracles standing for the network
  (`requests.get`) and the external parsers (BeautifulSoup element lookup,
  the MapQuest JSON body).  Each operation returns its result together with
  the updated cache and counts of `requests.get` and `save_cache` calls;
* the persistence layer `save_cache` / `open_cache` at the level of the
  JSON document tree written to / read from `project2_cache.json`
  (the Python `json` module serializes integer dictionary keys as decimal
  strings, and `json.loads` always yields string keys).
-/

/-- Values stored in `CACHE_DICT`: raw page text (`str`), the
integer-keyed rank-to-description dictionaries built by
`get_nearby_places` (`dictN`), and string-keyed string dictionaries —
the state-name-to-URL dictionary stored by `build_state_url_dict`, and
what integer-keyed dictionaries become after a JSON round trip (`dictS`). -/
inductive PyVal where
  | str (s : String)
  | dictN (kvs : List (Nat × String))
  | dictS (kvs : List (String × String))
deriving DecidableEq

/-- Whether a cached value is raw page text (a Python `str`). -/
def PyVal.isStr : PyVal → Bool
  | .str _ => true
  | _ => false

/-- Modelled from Python `str.strip()` on the ASCII whitespace this
program's data contains: drop leading and trailing whitespace characters. -/
def pyStrip (s : String) : String :=
  ⟨((s.data.dropWhile Char.isWhitespace).reverse.dropWhile Char.isWhitespace).reverse⟩

/-- Modelled from Python `str.lower()` on ASCII letters: lower-case every
character. -/
def pyLower (s : String) : String :=
  ⟨s.data.map Char.toLower⟩

/-- The in-memory `CACHE_DICT`, as an association list (first binding wins). -/
def Cache : Type := List (String × PyVal)

instance : DecidableEq Cache := inferInstanceAs (DecidableEq (List (String × PyVal)))

/-- Embeds `CACHE_DICT[key]` and `key in CACHE_DICT.keys()`. -/
def Cache.lookup : Cache → String → Option PyVal
  | [], _ => none
  | (k, v) :: rest, key => if k = key then some v else Cache.lookup rest key

/-- Embeds `CACHE_DICT[key] = v`: overwrite in place if present, else append. -/
def Cache.insert : Cache → String → PyVal → Cache
  | [], k, v => [(k, v)]
  | (k', v') :: rest, k, v =>
    if k' = k then (k, v) :: rest else (k', v') :: Cache.insert rest k v

/-- Result of one cache-aside operation: the returned value, the cache
afterwards, and how many `requests.get` and `save_cache` calls ran. -/
structure FetchResult (α : Type) where
  value : α
  cache : Cache
  fetches : Nat
  saves : Nat

/-- The `NationalSite` class (src/proj2_nps.py lines 15-56), with the
constructor's default field values. -/
structure NationalSite where
  category : String := "No Category"
  name : String := "No Name"
  address : String := "No Address"
  zipcode : String := "No Zipcode"
  phone : String := "No Phone Number"
deriving DecidableEq

/-- Embeds `NationalSite.info` (lines 43-56). -/
def NationalSite.info (s : NationalSite) : String :=
  s.name ++ " " ++ "(" ++ s.category ++ "): " ++ s.address ++ " " ++ s.zipcode

/-- The BeautifulSoup view of a site detail page used by
`get_site_instance` (lines 126-133): each field is `some t` when the
designated element is present with `.text = t`, `none` when `soup.find`
returns `None`. -/
structure SiteSoup where
  heroDesignation : Option String
  heroTitle : Option String
  tel : Option String
  postalCode : Option String
  addressRegion : Option String
  addressLocality : Option String

/-- The field extraction of `get_site_instance` (lines 126-135): `.strip()`
is applied only to the phone number and the zip code; the address is
composed as `city ++ ", " ++ state`. -/
def get_site_instance_parse (soup : SiteSoup) : NationalSite :=
  let park_type := match soup.heroDesignation with
    | some t => t
    | none => "No Type"
  let park_name := match soup.heroTitle with
    | some t => t
    | none => "No Name"
  let park_number0 := match soup.tel with
    | some t => t
    | none => "No Number"
  let park_number := pyStrip park_number0
  let park_zip0 := match soup.postalCode with
    | some t => t
    | none => "No Zip"
  let park_zip := pyStrip park_zip0
  let park_state := match soup.addressRegion with
    | some t => t
    | none => "No State"
  let park_city := match soup.addressLocality with
    | some t => t
    | none => "No City"
  let park_address := park_city ++ ", " ++ park_state
  ⟨park_type, park_name, park_address, park_zip, park_number⟩

/-- Embeds `get_site_instance` (lines 102-138).  `fetch` stands for
`requests.get(url).text`; `soupOf` for `BeautifulSoup(CACHE_DICT[site_url],
'html.parser')` applied to the cached value.  On a miss the page text is
cached under the site URL and `save_cache` runs once. -/
def get_site_instance (fetch : String → String) (soupOf : PyVal → SiteSoup)
    (cache : Cache) (site_url : String) : FetchResult NationalSite :=
  match cache.lookup site_url with
  | some v => ⟨get_site_instance_parse (soupOf v), cache, 0, 0⟩
  | none =>
    let text := fetch site_url
    ⟨get_site_instance_parse (soupOf (.str text)),
      cache.insert site_url (.str text), 1, 1⟩

/-- The per-heading loop of `get_sites_for_state` (lines 174-181): for each
`h3` heading's anchor href, build the absolute detail URL and run
`get_site_instance`, threading the cache through. -/
def sites_loop (fetch : String → String) (soupOf : PyVal → SiteSoup) :
    Cache → List String → FetchResult (List NationalSite)
  | cache, [] => ⟨[], cache, 0, 0⟩
  | cache, href :: rest =>
    let r := get_site_instance fetch soupOf cache ("https://www.nps.gov" ++ href)
    let rs := sites_loop fetch soupOf r.cache rest
    ⟨r.value :: rs.value, rs.cache, r.fetches + rs.fetches, r.saves + rs.saves⟩

/-- Embeds `get_sites_for_state` (lines 142-183).  `parkLinks` stands for the
BeautifulSoup selector chain (lines 170-172, the hrefs of the `h3` heading
anchors of the second child container, in page order) applied to the cached
page value. -/
def get_sites_for_state (fetch : String → String) (soupOf : PyVal → SiteSoup)
    (parkLinks : PyVal → List String) (cache : Cache) (state_url : String) :
    FetchResult (List NationalSite) :=
  match cache.lookup state_url with
  | some v => sites_loop fetch soupOf cache (parkLinks v)
  | none =>
    let text := fetch state_url
    let cache1 := cache.insert state_url (.str text)
    let r := sites_loop fetch soupOf cache1 (parkLinks (.str text))
    ⟨r.value, r.cache, 1 + r.fetches, 1 + r.saves⟩

/-- The page value `get_sites_for_state` parses: the cached entry on a hit,
the freshly fetched text on a miss. -/
def state_page_val (fetch : String → String) (cache : Cache) (state_url : String) : PyVal :=
  match cache.lookup state_url with
  | some v => v
  | none => .str (fetch state_url)

/-- The cache state after `get_sites_for_state` has ensured the state page
is cached, before the per-park loop runs. -/
def cache_after_page (fetch : String → String) (cache : Cache) (state_url : String) : Cache :=
  match cache.lookup state_url with
  | some _ => cache
  | none => cache.insert state_url (.str (fetch state_url))

/-- The site record `get_site_instance` produces for `url` as determined by
a reference cache: parsed from the cached entry if present, else from the
fetched text. -/
def siteOf (fetch : String → String) (soupOf : PyVal → SiteSoup)
    (cache : Cache) (url : String) : NationalSite :=
  get_site_instance_parse (soupOf (match cache.lookup url with
    | some v => v
    | none => .str (fetch url)))

/-- One entry of the MapQuest `searchResults[i]['fields']` object
(lines 231-246). -/
structure PlaceFields where
  name : String
  group_sic_code_name : String
  address : String
  city : String
deriving DecidableEq

/-- The parsed MapQuest JSON body: either `'searchResults' not in
json_dict` (line 222) or the list of `fields` objects in response order. -/
inductive ApiResponse where
  | noSearchResults
  | searchResults (rs : List PlaceFields)
deriving DecidableEq

/-- The description string composed for one nearby place (lines 234-248). -/
def place_description (i : PlaceFields) : String :=
  let place_street := if i.address = "" then "No Address" else i.address
  let place_city := if i.city = "" then "No City" else i.city
  i.name ++ " " ++ "(" ++ i.group_sic_code_name ++ "): " ++ place_street ++ ", " ++ place_city

/-- The `field_dict` loop of `get_nearby_places` (lines 228-249): 1-based
counter keys in response order. -/
def field_dict_from : Nat → List PlaceFields → List (Nat × String)
  | _, [] => []
  | counter, i :: rest => (counter, place_description i) :: field_dict_from (counter + 1) rest

/-- Embeds `get_nearby_places` (lines 187-255).  `api` stands for the MapQuest
radius query keyed by zip code (one `requests.get`, line 218), already
JSON-decoded.  The cache key is the site's zip code; on a miss the built
`field_dict` (empty for the `"No Zip"` placeholder or a missing
`searchResults` collection) is cached and `save_cache` runs once. -/
def get_nearby_places (api : String → ApiResponse) (cache : Cache)
    (site : NationalSite) : FetchResult PyVal :=
  let zipcode := site.zipcode
  match cache.lookup zipcode with
  | some v => ⟨v, cache, 0, 0⟩
  | none =>
    if zipcode = "No Zip" then
      ⟨.dictN [], cache.insert zipcode (.dictN []), 0, 1⟩
    else
      match api zipcode with
      | .noSearchResults =>
        ⟨.dictN [], cache.insert zipcode (.dictN []), 1, 1⟩
      | .searchResults rs =>
        let fd := field_dict_from 1 rs
        ⟨.dictN fd, cache.insert zipcode (.dictN fd), 1, 1⟩

/-- The state dictionary built by `build_state_url_dict` (lines 86-93):
item text stripped, href prefixed with the site origin, then all keys
lower-cased by the dict comprehension. -/
def state_url_dict_of (items : List (String × String)) : List (String × String) :=
  (items.map (fun p => (pyStrip p.1, "https://www.nps.gov" ++ p.2))).map
    (fun p => (pyLower p.1, p.2))

/-- Embeds `build_state_url_dict` (lines 59-99).  `stateItems` stands for the
BeautifulSoup selector chain of lines 82-88 applied to the page text: the
`(item.text, a['href'])` pairs of the `li` items under the `HERO` element.
On a miss the code calls `requests.get(url)` twice — at line 81 to obtain
the page and again at line 94 with the response discarded — then caches the
built dictionary itself (not the page text) under the index URL. -/
def build_state_url_dict (fetch : String → String)
    (stateItems : String → List (String × String)) (cache : Cache) :
    FetchResult PyVal :=
  let url := "https://www.nps.gov/index.htm"
  match cache.lookup url with
  | some v => ⟨v, cache, 0, 0⟩
  | none =>
    let text := fetch url
    let d := state_url_dict_of (stateItems text)
    let _ := fetch url
    ⟨.dictS d, cache.insert url (.dictS d), 2, 1⟩

/-- JSON documents of the shapes this program's cache serializes to:
strings and objects whose structure mirrors the stored dictionaries. -/
inductive Json where
  | jstr (s : String)
  | jobj (kvs : List (String × Json))

/-- Modelled from the Python `json` module: `json.dumps` on one cached
value.  Integer dictionary keys are rendered as decimal strings. -/
def dumpVal : PyVal → Json
  | .str s => .jstr s
  | .dictN kvs => .jobj (kvs.map (fun p => (toString p.1, Json.jstr p.2)))
  | .dictS kvs => .jobj (kvs.map (fun p => (p.1, Json.jstr p.2)))

/-- Embeds `save_cache` (lines 281-296): the JSON document written to
`project2_cache.json` for a given cache. -/
def save_cache (c : Cache) : Json :=
  .jobj (c.map (fun p => (p.1, dumpVal p.2)))

/-- Modelled from the Python `json` module: `json.loads` of one object
value back into a cache value.  JSON object keys are always strings, so a
nested object loads as a string-keyed dictionary; `none` marks document
shapes this program never writes. -/
def loadVal : Json → Option PyVal
  | .jstr s => some (.str s)
  | .jobj kvs => (loadEntries kvs).map PyVal.dictS
where
  /-- Load the entries of a nested object, each value a JSON string. -/
  loadEntries : List (String × Json) → Option (List (String × String))
  | [] => some []
  | (k, .jstr s) :: rest => (loadEntries rest).map (fun r => (k, s) :: r)
  | (_, .jobj _) :: _ => none

/-- Load a whole cache document: each top-level value a string or a nested
string-valued object. -/
def load_cache_doc : List (String × Json) → Option Cache
  | [] => some []
  | (k, j) :: rest =>
    match loadVal j with
    | some v => (load_cache_doc rest).map (fun r => (k, v) :: r)
    | none => none

/-- Embeds `open_cache` (lines 258-278): read the cache file and JSON-decode it;
an absent or undecodable file yields the empty cache (the bare `except`). -/
def open_cache (file : Option Json) : Cache :=
  match file with
  | some (.jobj kvs) =>
    match load_cache_doc kvs with
    | some c => c
    | none => []
  | some (.jstr _) => []
  | none => []

/-- What a JSON round trip does to one cached value: integer rank keys
become their decimal-string forms. -/
def stringifyVal : PyVal → PyVal
  | .str s => .str s
  | .dictN kvs => .dictS (kvs.map (fun p => (toString p.1, p.2)))
  | .dictS kvs => .dictS kvs

/-- Key-stringification of a whole cache. -/
def stringifyCache (c : Cache) : Cache :=
  c.map (fun p => (p.1, stringifyVal p.2))

theorem Cache.lookup_insert_self (c : Cache) (k : String) (v : PyVal) :
    (c.insert k v).lookup k = some v := by
  induction c with
  | nil => simp [Cache.insert, Cache.lookup]
  | cons hd tl ih =>
    obtain ⟨k', v'⟩ := hd
    by_cases h : k' = k
    · simp [Cache.insert, h, Cache.lookup]
    · simp [Cache.insert, h, Cache.lookup, ih]

theorem Cache.lookup_insert_ne (c : Cache) (k k' : String) (v : PyVal) (h : k ≠ k') :
    (c.insert k v).lookup k' = c.lookup k' := by
  induction c with
  | nil => simp [Cache.insert, Cache.lookup, h]
  | cons hd tl ih =>
    obtain ⟨k0, v0⟩ := hd
    by_cases h0 : k0 = k
    · subst h0; simp [Cache.insert, Cache.lookup, h]
    · simp [Cache.insert, h0, Cache.lookup, ih]

/-- Cache evolution as the fetch-and-extract operations run: an existing
binding is never changed, and any new binding holds fetched page text. -/
def CacheExt (fetch : String → String) (c c' : Cache) : Prop :=
  ∀ k, c'.lookup k = c.lookup k ∨
    (c.lookup k = none ∧ c'.lookup k = some (.str (fetch k)))

theorem cacheExt_refl (fetch : String → String) (c : Cache) : CacheExt fetch c c :=
  fun _ => Or.inl rfl

theorem cacheExt_trans {fetch : String → String} {c1 c2 c3 : Cache}
    (h1 : CacheExt fetch c1 c2) (h2 : CacheExt fetch c2 c3) : CacheExt fetch c1 c3 := by
  intro k
  rcases h2 k with h | ⟨hn2, hs3⟩
  · rcases h1 k with h' | ⟨hn1, hs2⟩
    · exact Or.inl (h.trans h')
    · exact Or.inr ⟨hn1, h.trans hs2⟩
  · rcases h1 k with h' | ⟨hn1, hs2⟩
    · exact Or.inr ⟨h'.symm.trans hn2, hs3⟩
    · rw [hn2] at hs2
      exact Option.noConfusion hs2

theorem get_site_instance_hit {cache : Cache} {u : String} {v : PyVal}
    (fetch : String → String) (soupOf : PyVal → SiteSoup) (h : cache.lookup u = some v) :
    get_site_instance fetch soupOf cache u =
      ⟨get_site_instance_parse (soupOf v), cache, 0, 0⟩ := by
  simp [get_site_instance, h]

theorem get_nearby_places_hit {cache : Cache} {site : NationalSite} {v : PyVal}
    (api : String → ApiResponse) (h : cache.lookup site.zipcode = some v) :
    get_nearby_places api cache site = ⟨v, cache, 0, 0⟩ := by
  simp [get_nearby_places, h]

theorem build_state_url_dict_hit {cache : Cache} {v : PyVal} (fetch : String → String)
    (stateItems : String → List (String × String))
    (h : cache.lookup "https://www.nps.gov/index.htm" = some v) :
    build_state_url_dict fetch stateItems cache = ⟨v, cache, 0, 0⟩ := by
  simp [build_state_url_dict, h]

theorem get_site_instance_ext (fetch : String → String) (soupOf : PyVal → SiteSoup)
    (cache : Cache) (u : String) :
    CacheExt fetch cache (get_site_instance fetch soupOf cache u).cache := by
  intro k
  rcases h : cache.lookup u with _ | v
  · by_cases hk : u = k
    · subst hk
      exact Or.inr ⟨h, by simp [get_site_instance, h, Cache.lookup_insert_self]⟩
    · exact Or.inl (by simp [get_site_instance, h, Cache.lookup_insert_ne _ _ _ _ hk])
  · exact Or.inl (by simp [get_site_instance, h])

theorem sites_loop_ext (fetch : String → String) (soupOf : PyVal → SiteSoup) :
    ∀ (hs : List String) (cache : Cache),
    CacheExt fetch cache (sites_loop fetch soupOf cache hs).cache := by
  intro hs
  induction hs with
  | nil => exact fun c => cacheExt_refl fetch c
  | cons h t ih =>
    intro c
    exact cacheExt_trans
      (get_site_instance_ext fetch soupOf c ("https://www.nps.gov" ++ h))
      (ih _)

theorem get_site_instance_value_ext {fetch : String → String} {c c' : Cache}
    (soupOf : PyVal → SiteSoup) (u : String) (hext : CacheExt fetch c c') :
    (get_site_instance fetch soupOf c' u).value = siteOf fetch soupOf c u := by
  rcases hext u with h | ⟨hn, hs⟩
  · rcases h2 : c.lookup u with _ | v
    · rw [h2] at h
      simp [get_site_instance, siteOf, h, h2]
    · rw [h2] at h
      simp [get_site_instance, siteOf, h, h2]
  · simp [get_site_instance, siteOf, hn, hs]

theorem sites_loop_value_ext (fetch : String → String) (soupOf : PyVal → SiteSoup) :
    ∀ (hs : List String) {c c' : Cache}, CacheExt fetch c c' →
    (sites_loop fetch soupOf c' hs).value =
      hs.map (fun h => siteOf fetch soupOf c ("https://www.nps.gov" ++ h)) := by
  intro hs
  induction hs with
  | nil => intro c c' _; rfl
  | cons h t ih =>
    intro c c' hext
    have h1 := get_site_instance_value_ext soupOf ("https://www.nps.gov" ++ h) hext
    have h2 := ih (cacheExt_trans hext
      (get_site_instance_ext fetch soupOf c' ("https://www.nps.gov" ++ h)))
    simp [sites_loop, h1, h2]

theorem sites_loop_all_hit (fetch : String → String) (soupOf : PyVal → SiteSoup) :
    ∀ (hs : List String) (c : Cache),
    (∀ x ∈ hs, (c.lookup ("https://www.nps.gov" ++ x)).isSome) →
    (sites_loop fetch soupOf c hs).cache = c ∧
    (sites_loop fetch soupOf c hs).fetches = 0 ∧
    (sites_loop fetch soupOf c hs).saves = 0 := by
  intro hs
  induction hs with
  | nil => exact fun c _ => ⟨rfl, rfl, rfl⟩
  | cons h t ih =>
    intro c hall
    have hh := hall h (by simp)
    rcases hv : c.lookup ("https://www.nps.gov" ++ h) with _ | v
    · rw [hv] at hh
      simp at hh
    · have hr := get_site_instance_hit fetch soupOf hv
      have hrest := ih c (fun x hx => hall x (by simp [hx]))
      simp [sites_loop, hr, hrest.1, hrest.2.1, hrest.2.2]

theorem get_sites_for_state_hit {cache : Cache} {surl : String} {v : PyVal}
    (fetch : String → String) (soupOf : PyVal → SiteSoup) (links : PyVal → List String)
    (h : cache.lookup surl = some v) :
    get_sites_for_state fetch soupOf links cache surl =
      sites_loop fetch soupOf cache (links v) := by
  simp [get_sites_for_state, h]

theorem get_sites_for_state_cache (fetch : String → String) (soupOf : PyVal → SiteSoup)
    (links : PyVal → List String) (cache : Cache) (surl : String) :
    (get_sites_for_state fetch soupOf links cache surl).cache =
      (sites_loop fetch soupOf (cache_after_page fetch cache surl)
        (links (state_page_val fetch cache surl))).cache := by
  rcases h : cache.lookup surl with _ | v <;>
    simp [get_sites_for_state, cache_after_page, state_page_val, h]

theorem cache_after_page_lookup (fetch : String → String) (cache : Cache) (surl : String) :
    (cache_after_page fetch cache surl).lookup surl =
      some (state_page_val fetch cache surl) := by
  rcases h : cache.lookup surl with _ | v <;>
    simp [cache_after_page, state_page_val, h, Cache.lookup_insert_self]

theorem get_sites_for_state_value (fetch : String → String) (soupOf : PyVal → SiteSoup)
    (links : PyVal → List String) (cache : Cache) (surl : String) :
    (get_sites_for_state fetch soupOf links cache surl).value =
      (links (state_page_val fetch cache surl)).map
        (fun h => siteOf fetch soupOf (cache_after_page fetch cache surl)
          ("https://www.nps.gov" ++ h)) := by
  rcases h : cache.lookup surl with _ | v
  · simp only [get_sites_for_state, state_page_val, cache_after_page, h]
    exact sites_loop_value_ext fetch soupOf _ (cacheExt_refl _ _)
  · simp only [get_sites_for_state, state_page_val, cache_after_page, h]
    exact sites_loop_value_ext fetch soupOf _ (cacheExt_refl _ _)

theorem get_site_instance_idem (fetch : String → String) (soupOf : PyVal → SiteSoup)
    (cache : Cache) (u : String) :
    (get_site_instance fetch soupOf (get_site_instance fetch soupOf cache u).cache u).value =
      (get_site_instance fetch soupOf cache u).value := by
  rcases h : cache.lookup u with _ | v
  · simp [get_site_instance, h, Cache.lookup_insert_self]
  · simp [get_site_instance, h]

theorem get_nearby_places_idem (api : String → ApiResponse) (cache : Cache)
    (site : NationalSite) :
    (get_nearby_places api (get_nearby_places api cache site).cache site).value =
      (get_nearby_places api cache site).value := by
  rcases h : cache.lookup site.zipcode with _ | v
  · by_cases hz : site.zipcode = "No Zip"
    · rw [hz] at h
      simp [get_nearby_places, h, hz, Cache.lookup_insert_self]
    · rcases ha : api site.zipcode with _ | rs <;>
        simp [get_nearby_places, h, hz, ha, Cache.lookup_insert_self]
  · simp [get_nearby_places, h]

theorem build_state_url_dict_idem (fetch : String → String)
    (stateItems : String → List (String × String)) (cache : Cache) :
    (build_state_url_dict fetch stateItems
        (build_state_url_dict fetch stateItems cache).cache).value =
      (build_state_url_dict fetch stateItems cache).value := by
  rcases h : cache.lookup "https://www.nps.gov/index.htm" with _ | v
  · simp [build_state_url_dict, h, Cache.lookup_insert_self]
  · simp [build_state_url_dict, h]

theorem get_sites_for_state_idem (fetch : String → String) (soupOf : PyVal → SiteSoup)
    (links : PyVal → List String) (cache : Cache) (surl : String) :
    (get_sites_for_state fetch soupOf links
        (get_sites_for_state fetch soupOf links cache surl).cache surl).value =
      (get_sites_for_state fetch soupOf links cache surl).value := by
  have hcf := get_sites_for_state_cache fetch soupOf links cache surl
  have hext : CacheExt fetch (cache_after_page fetch cache surl)
      (get_sites_for_state fetch soupOf links cache surl).cache := by
    rw [hcf]
    exact sites_loop_ext fetch soupOf _ _
  have hlk : ((get_sites_for_state fetch soupOf links cache surl).cache).lookup surl =
      some (state_page_val fetch cache surl) := by
    rcases hext surl with h | ⟨hn, _⟩
    · rw [h, cache_after_page_lookup]
    · rw [cache_after_page_lookup] at hn
      exact Option.noConfusion hn
  rw [get_sites_for_state_value fetch soupOf links cache surl,
    get_sites_for_state_hit fetch soupOf links hlk]
  exact sites_loop_value_ext fetch soupOf _ hext

theorem get_sites_for_state_ext (fetch : String → String) (soupOf : PyVal → SiteSoup)
    (links : PyVal → List String) (cache : Cache) (surl : String) :
    CacheExt fetch cache (get_sites_for_state fetch soupOf links cache surl).cache := by
  rw [get_sites_for_state_cache]
  refine cacheExt_trans (fun k => ?_) (sites_loop_ext fetch soupOf _ _)
  rcases h : cache.lookup surl with _ | v
  · by_cases hk : surl = k
    · subst hk
      exact Or.inr ⟨h, by simp [cache_after_page, h, Cache.lookup_insert_self]⟩
    · exact Or.inl (by simp [cache_after_page, h, Cache.lookup_insert_ne _ _ _ _ hk])
  · exact Or.inl (by simp [cache_after_page, h])

theorem get_nearby_places_writes (api : String → ApiResponse) (cache : Cache)
    (site : NationalSite) :
    ∀ k, ((get_nearby_places api cache site).cache).lookup k = cache.lookup k ∨
      ∃ kvs, ((get_nearby_places api cache site).cache).lookup k = some (.dictN kvs) := by
  intro k
  rcases h : cache.lookup site.zipcode with _ | v
  · by_cases hk : site.zipcode = k
    · subst hk
      by_cases hz : site.zipcode = "No Zip"
      · rw [hz] at h
        exact Or.inr ⟨[], by simp [get_nearby_places, hz, h, Cache.lookup_insert_self]⟩
      · rcases ha : api site.zipcode with _ | rs
        · exact Or.inr ⟨[], by simp [get_nearby_places, h, hz, ha, Cache.lookup_insert_self]⟩
        · exact Or.inr ⟨field_dict_from 1 rs,
            by simp [get_nearby_places, h, hz, ha, Cache.lookup_insert_self]⟩
    · refine Or.inl ?_
      by_cases hz : site.zipcode = "No Zip"
      · rw [hz] at h hk
        simp [get_nearby_places, hz, h, Cache.lookup_insert_ne _ _ _ _ hk]
      · rcases ha : api site.zipcode with _ | rs <;>
          simp [get_nearby_places, h, hz, ha, Cache.lookup_insert_ne _ _ _ _ hk]
  · exact Or.inl (by simp [get_nearby_places, h])

theorem loadEntries_map_jstr {α : Type} (f : α → String) (g : α → String) :
    ∀ (l : List α), loadVal.loadEntries (l.map (fun a => (f a, Json.jstr (g a)))) =
      some (l.map (fun a => (f a, g a))) := by
  intro l
  induction l with
  | nil => rfl
  | cons a t ih => simp [loadVal.loadEntries, ih]

theorem loadVal_dumpVal (v : PyVal) : loadVal (dumpVal v) = some (stringifyVal v) := by
  cases v with
  | str s => rfl
  | dictN kvs =>
    simpa [dumpVal, loadVal, stringifyVal] using
      loadEntries_map_jstr (fun p : Nat × String => toString p.1) (fun p => p.2) kvs
  | dictS kvs =>
    simpa [dumpVal, loadVal, stringifyVal] using
      loadEntries_map_jstr (fun p : String × String => p.1) (fun p => p.2) kvs

theorem load_cache_doc_save (c : Cache) :
    load_cache_doc (c.map (fun p => (p.1, dumpVal p.2))) = some (stringifyCache c) := by
  induction c with
  | nil => rfl
  | cons hd tl ih =>
    simp [load_cache_doc, loadVal_dumpVal, ih, stringifyCache]

theorem load_save (c : Cache) : open_cache (some (save_cache c)) = stringifyCache c := by
  simp [open_cache, save_cache, load_cache_doc_save c]

/-- Constant network oracle: every page fetch returns the same text. -/
def fetch0 : String → String := fun _ => "page"

/-- Detail-page parse oracle: every element absent. -/
def soupOf0 : PyVal → SiteSoup := fun _ => ⟨none, none, none, none, none, none⟩

/-- State-listing parse oracle: one park heading. -/
def links0 : PyVal → List String := fun _ => ["/park/p1/index.htm"]

/-- State-listing parse oracle: no park headings. -/
def links1 : PyVal → List String := fun _ => []

/-- MapQuest oracle: the response never has a `searchResults` collection. -/
def api0 : String → ApiResponse := fun _ => .noSearchResults

/-- Directory-page parse oracle: one state item. -/
def items0 : String → List (String × String) :=
  fun _ => [("Michigan", "/state/mi/index.htm")]

/-- A site whose detail page lacked every field. -/
def site0 : NationalSite := ⟨"No Type", "No Name", "No City, No State", "No Zip", "No Number"⟩

/-- A fully populated site. -/
def site49931 : NationalSite :=
  ⟨"National Park", "Isle Royale", "Houghton, MI", "49931", "(906) 482-0984"⟩

/-- A cache holding only the Michigan state page. -/
def cacheMi : Cache := [("https://www.nps.gov/state/mi/index.htm", .str "statepage")]

/-- A cache holding the directory URL and a zip-code key. -/
def cacheW : Cache := [("https://www.nps.gov/index.htm", .str "x"), ("49931", .str "x")]

/-- C1: for every key not already present in the cache, a cache-aside fetch
performs the underlying network fetch exactly once and afterward the cache
maps that key to the returned value.  The code violates the fetch count in
`build_state_url_dict`: on a directory-cache miss it calls `requests.get`
on the index URL twice (lines 81 and 94), the second response discarded, so
starting from the empty cache two network fetches run (while the cache does
end up holding the returned dictionary). -/
theorem build_state_url_dict_double_fetch :
    (build_state_url_dict fetch0 items0 []).fetches = 2 ∧
    (build_state_url_dict fetch0 items0 []).cache.lookup "https://www.nps.gov/index.htm" =
      some (build_state_url_dict fetch0 items0 []).value :=
  ⟨rfl, rfl⟩

/-- C2 counterexample: with the Michigan state page cached but its one park
detail page not cached, `get_sites_for_state` on the cached state URL still
performs a network call (fetching the park page), refuting "performs no
network call" for keys already present. -/
theorem get_sites_for_state_hit_still_fetches :
    (get_sites_for_state fetch0 soupOf0 links0 cacheMi
      "https://www.nps.gov/state/mi/index.htm").fetches = 1 ∧
    (get_sites_for_state fetch0 soupOf0 links0 cacheMi
      "https://www.nps.gov/state/mi/index.htm").fetches ≠ 0 :=
  ⟨rfl, by decide⟩

/-- C2 (amended): for a key already present in the cache,
`build_state_url_dict` and `get_nearby_places` perform no network call and
return the stored value unchanged with the cache untouched;
`get_site_instance` performs no network call and returns the record parsed
from the stored page; `get_sites_for_state` performs no fetch for the state
URL itself, reducing to the per-park loop over the cached page (nested
fetches may still occur for uncached detail pages); and repeating any of
the four fetches yields the same result (idempotence). -/
theorem cache_hit_returns_stored_value (fetch : String → String)
    (soupOf : PyVal → SiteSoup) (links : PyVal → List String)
    (api : String → ApiResponse) (stateItems : String → List (String × String))
    (cache : Cache) (site : NationalSite) (url surl : String) (v : PyVal) :
    (cache.lookup "https://www.nps.gov/index.htm" = some v →
      build_state_url_dict fetch stateItems cache = ⟨v, cache, 0, 0⟩) ∧
    (cache.lookup site.zipcode = some v →
      get_nearby_places api cache site = ⟨v, cache, 0, 0⟩) ∧
    (cache.lookup url = some v →
      get_site_instance fetch soupOf cache url =
        ⟨get_site_instance_parse (soupOf v), cache, 0, 0⟩) ∧
    (cache.lookup surl = some v →
      get_sites_for_state fetch soupOf links cache surl =
        sites_loop fetch soupOf cache (links v)) ∧
    (get_site_instance fetch soupOf
        (get_site_instance fetch soupOf cache url).cache url).value =
      (get_site_instance fetch soupOf cache url).value ∧
    (get_nearby_places api (get_nearby_places api cache site).cache site).value =
      (get_nearby_places api cache site).value ∧
    (build_state_url_dict fetch stateItems
        (build_state_url_dict fetch stateItems cache).cache).value =
      (build_state_url_dict fetch stateItems cache).value ∧
    (get_sites_for_state fetch soupOf links
        (get_sites_for_state fetch soupOf links cache surl).cache surl).value =
      (get_sites_for_state fetch soupOf links cache surl).value :=
  ⟨fun h => build_state_url_dict_hit fetch stateItems h,
   fun h => get_nearby_places_hit api h,
   fun h => get_site_instance_hit fetch soupOf h,
   fun h => get_sites_for_state_hit fetch soupOf links h,
   get_site_instance_idem fetch soupOf cache url,
   get_nearby_places_idem api cache site,
   build_state_url_dict_idem fetch stateItems cache,
   get_sites_for_state_idem fetch soupOf links cache surl⟩

/-- C2 witness: the amended hit behavior at a concrete cache holding the
directory URL and the key "49931". -/
theorem cache_hit_returns_stored_value_witness :
    build_state_url_dict fetch0 items0 cacheW = ⟨.str "x", cacheW, 0, 0⟩ ∧
    get_nearby_places api0 cacheW site49931 = ⟨.str "x", cacheW, 0, 0⟩ ∧
    get_site_instance fetch0 soupOf0 cacheW "49931" =
      ⟨get_site_instance_parse (soupOf0 (.str "x")), cacheW, 0, 0⟩ ∧
    get_sites_for_state fetch0 soupOf0 links1 cacheW "49931" =
      sites_loop fetch0 soupOf0 cacheW (links1 (.str "x")) ∧
    (get_site_instance fetch0 soupOf0
        (get_site_instance fetch0 soupOf0 cacheW "49931").cache "49931").value =
      (get_site_instance fetch0 soupOf0 cacheW "49931").value ∧
    (get_nearby_places api0 (get_nearby_places api0 cacheW site49931).cache site49931).value =
      (get_nearby_places api0 cacheW site49931).value ∧
    (build_state_url_dict fetch0 items0
        (build_state_url_dict fetch0 items0 cacheW).cache).value =
      (build_state_url_dict fetch0 items0 cacheW).value ∧
    (get_sites_for_state fetch0 soupOf0 links1
        (get_sites_for_state fetch0 soupOf0 links1 cacheW "49931").cache "49931").value =
      (get_sites_for_state fetch0 soupOf0 links1 cacheW "49931").value := by
  have h := cache_hit_returns_stored_value fetch0 soupOf0 links1 api0 items0
    cacheW site49931 "49931" "49931" (.str "x")
  exact ⟨h.1 rfl, h.2.1 rfl, h.2.2.1 rfl, h.2.2.2.1 rfl, h.2.2.2.2.1,
    h.2.2.2.2.2.1, h.2.2.2.2.2.2.1, h.2.2.2.2.2.2.2⟩

/-- C3 counterexample: a cache whose value is the integer-rank dictionary
`{1: "a"}` does not survive `save_cache` followed by `open_cache`
unchanged — the rank key comes back as the string "1". -/
theorem save_open_roundtrip_not_identity :
    open_cache (some (save_cache [("49931", .dictN [(1, "a")])])) =
      [("49931", .dictS [("1", "a")])] ∧
    open_cache (some (save_cache [("49931", .dictN [(1, "a")])])) ≠
      [("49931", .dictN [(1, "a")])] :=
  ⟨rfl, by decide⟩

/-- C3 (amended): `save_cache` followed by `open_cache` reproduces the
mapping with every integer rank key rendered as its decimal string (the
Python `json` module serializes integer dictionary keys as strings); in
particular a mapping already in that string-keyed form — e.g. one whose
values are all raw page strings — round-trips exactly. -/
theorem save_open_roundtrip_stringifies (c : Cache) :
    open_cache (some (save_cache c)) = stringifyCache c ∧
    (stringifyCache c = c → open_cache (some (save_cache c)) = c) :=
  ⟨load_save c, fun h => (load_save c).trans h⟩

/-- C3 witness: a string-valued cache round-trips exactly. -/
theorem save_open_roundtrip_stringifies_witness :
    open_cache (some (save_cache cacheMi)) = stringifyCache cacheMi ∧
    open_cache (some (save_cache cacheMi)) = cacheMi :=
  ⟨(save_open_roundtrip_stringifies cacheMi).1,
   (save_open_roundtrip_stringifies cacheMi).2 rfl⟩

/-- C4 counterexample: after `build_state_url_dict` runs on the empty
cache, the entry under the directory page's URL is the state-name-to-URL
dictionary itself, not the raw page markup; and a second run returns that
cached dictionary with zero fetches, so the in-memory mapping is not
rebuilt from any cached page. -/
theorem directory_entry_is_state_dict_not_markup :
    (build_state_url_dict fetch0 items0 []).cache.lookup "https://www.nps.gov/index.htm" =
      some (.dictS [("michigan", "https://www.nps.gov/state/mi/index.htm")]) ∧
    ((build_state_url_dict fetch0 items0 []).cache.lookup
      "https://www.nps.gov/index.htm").map PyVal.isStr = some false ∧
    (build_state_url_dict fetch0 items0
      ((build_state_url_dict fetch0 items0 []).cache)).fetches = 0 :=
  ⟨by decide, by decide, by decide⟩

/-- C4 (amended): `get_site_instance` and `get_sites_for_state` write only
raw page text into the cache, and `get_nearby_places` writes only
integer-rank-to-description dictionaries; but `build_state_url_dict` stores
the state-name-to-URL dictionary itself (not the page markup) under the
directory page's URL, and on later runs returns that stored dictionary
directly, with no fetch and no rebuilding from a cached page. -/
theorem cache_write_shapes (fetch : String → String) (soupOf : PyVal → SiteSoup)
    (links : PyVal → List String) (api : String → ApiResponse)
    (stateItems : String → List (String × String)) (cache : Cache)
    (site : NationalSite) (url surl : String) (v : PyVal) :
    (cache.lookup "https://www.nps.gov/index.htm" = none →
      (build_state_url_dict fetch stateItems cache).value =
        .dictS (state_url_dict_of (stateItems (fetch "https://www.nps.gov/index.htm"))) ∧
      (build_state_url_dict fetch stateItems cache).cache.lookup
          "https://www.nps.gov/index.htm" =
        some (.dictS (state_url_dict_of (stateItems (fetch "https://www.nps.gov/index.htm"))))) ∧
    (cache.lookup "https://www.nps.gov/index.htm" = some v →
      build_state_url_dict fetch stateItems cache = ⟨v, cache, 0, 0⟩) ∧
    (∀ k, ((get_site_instance fetch soupOf cache url).cache).lookup k = cache.lookup k ∨
      ((get_site_instance fetch soupOf cache url).cache).lookup k = some (.str (fetch k))) ∧
    (∀ k, ((get_sites_for_state fetch soupOf links cache surl).cache).lookup k =
        cache.lookup k ∨
      ((get_sites_for_state fetch soupOf links cache surl).cache).lookup k =
        some (.str (fetch k))) ∧
    (∀ k, ((get_nearby_places api cache site).cache).lookup k = cache.lookup k ∨
      ∃ kvs, ((get_nearby_places api cache site).cache).lookup k = some (.dictN kvs)) := by
  refine ⟨fun h => ?_, fun h => build_state_url_dict_hit fetch stateItems h,
    fun k => ((get_site_instance_ext fetch soupOf cache url) k).imp id And.right,
    fun k => ((get_sites_for_state_ext fetch soupOf links cache surl) k).imp id And.right,
    get_nearby_places_writes api cache site⟩
  constructor
  · simp [build_state_url_dict, h]
  · simp [build_state_url_dict, h, Cache.lookup_insert_self]

/-- C4 witness: the amended write-shape statement at the concrete oracles,
with the directory URL both absent (empty cache) and present (`cacheW`). -/
theorem cache_write_shapes_witness :
    ((build_state_url_dict fetch0 items0 []).value =
        .dictS (state_url_dict_of (items0 (fetch0 "https://www.nps.gov/index.htm"))) ∧
      (build_state_url_dict fetch0 items0 []).cache.lookup "https://www.nps.gov/index.htm" =
        some (.dictS (state_url_dict_of (items0 (fetch0 "https://www.nps.gov/index.htm"))))) ∧
    build_state_url_dict fetch0 items0 cacheW = ⟨.str "x", cacheW, 0, 0⟩ ∧
    (∀ k, ((get_site_instance fetch0 soupOf0 [] "u").cache).lookup k = Cache.lookup [] k ∨
      ((get_site_instance fetch0 soupOf0 [] "u").cache).lookup k = some (.str (fetch0 k))) := by
  have h1 := cache_write_shapes fetch0 soupOf0 links1 api0 items0 []
    site49931 "u" "s" (.str "x")
  have h2 := cache_write_shapes fetch0 soupOf0 links1 api0 items0 cacheW
    site49931 "u" "s" (.str "x")
  exact ⟨h1.1 rfl, h2.2.1 rfl, h1.2.2.1⟩

/-- C5 counterexample: a detail page whose category element's text carries
surrounding whitespace is extracted verbatim, not trimmed — the code strips
only the phone number and the zip code. -/
theorem category_text_not_trimmed :
    (get_site_instance_parse ⟨some " National Park ", none, none, none, none, none⟩).category =
      " National Park " ∧
    pyStrip " National Park " = "National Park" ∧
    " National Park " ≠ "National Park" :=
  ⟨rfl, by decide, by decide⟩

/-- C5 (amended): the facility extractor is total (never raises on a
missing field) and substitutes the documented placeholders "No Type",
"No Name", "No Number", "No Zip", "No State", "No City" for absent
elements, but trims the element text only for the phone number and the zip
code; category, name, state and city are taken verbatim, and the address is
composed as city, comma, state. -/
theorem site_field_extraction_contract (soup : SiteSoup) :
    (get_site_instance_parse soup).category = soup.heroDesignation.getD "No Type" ∧
    (get_site_instance_parse soup).name = soup.heroTitle.getD "No Name" ∧
    (get_site_instance_parse soup).phone = pyStrip (soup.tel.getD "No Number") ∧
    (get_site_instance_parse soup).zipcode = pyStrip (soup.postalCode.getD "No Zip") ∧
    (get_site_instance_parse soup).address =
      soup.addressLocality.getD "No City" ++ ", " ++ soup.addressRegion.getD "No State" := by
  obtain ⟨a, b, c, d, e, f⟩ := soup
  cases a <;> cases b <;> cases c <;> cases d <;> cases e <;> cases f <;>
    exact ⟨rfl, rfl, rfl, rfl, rfl⟩

/-- C6 counterexample: a detail page with no category element yields the
sentinel "No Type", not the "No Category" the claim states — the
constructor default "No Category" is always overridden because
`get_site_instance` passes `park_type` explicitly. -/
theorem absent_category_not_no_category :
    (get_site_instance_parse ⟨none, none, none, none, none, none⟩).category = "No Type" ∧
    (get_site_instance_parse ⟨none, none, none, none, none, none⟩).category ≠ "No Category" :=
  ⟨rfl, by decide⟩

/-- C6 (amended): for every detail page whose category element is absent,
the constructed record's category field equals the sentinel "No Type". -/
theorem absent_category_gives_no_type (soup : SiteSoup)
    (h : soup.heroDesignation = none) :
    (get_site_instance_parse soup).category = "No Type" := by
  obtain ⟨a, b, c, d, e, f⟩ := soup
  cases h
  rfl

/-- C6 witness: the amended statement at a page missing only the category. -/
theorem absent_category_gives_no_type_witness :
    (get_site_instance_parse ⟨none, some "Isle Royale", none, none, none, none⟩).category =
      "No Type" :=
  absent_category_gives_no_type ⟨none, some "Isle Royale", none, none, none, none⟩ rfl

/-- C7: for a facility whose postal code is the "No Zip" placeholder and
that placeholder not yet cached, the proximity enricher returns the empty
mapping with no network call and caches it under the key "No Zip", and any
further facility lacking a postal code gets that shared cached empty result
with no network call. -/
theorem no_zip_short_circuit (api : String → ApiResponse) (cache : Cache)
    (site site2 : NationalSite) (hz : site.zipcode = "No Zip")
    (hz2 : site2.zipcode = "No Zip") (hc : cache.lookup "No Zip" = none) :
    (get_nearby_places api cache site).value = .dictN [] ∧
    (get_nearby_places api cache site).fetches = 0 ∧
    ((get_nearby_places api cache site).cache).lookup "No Zip" = some (.dictN []) ∧
    (get_nearby_places api (get_nearby_places api cache site).cache site2).value =
      .dictN [] ∧
    (get_nearby_places api (get_nearby_places api cache site).cache site2).fetches = 0 := by
  have h1 : get_nearby_places api cache site =
      ⟨.dictN [], cache.insert "No Zip" (.dictN []), 0, 1⟩ := by
    simp [get_nearby_places, hz, hc]
  have h2 : (cache.insert "No Zip" (PyVal.dictN [])).lookup "No Zip" =
      some (.dictN []) := Cache.lookup_insert_self ..
  have h3 : get_nearby_places api (cache.insert "No Zip" (.dictN [])) site2 =
      ⟨.dictN [], cache.insert "No Zip" (.dictN []), 0, 0⟩ :=
    get_nearby_places_hit api (by rw [hz2]; exact h2)
  exact ⟨by rw [h1], by rw [h1], by rw [h1]; exact h2, by rw [h1, h3], by rw [h1, h3]⟩

/-- C7 witness: the short circuit at the empty cache and a field-less site. -/
theorem no_zip_short_circuit_witness :
    (get_nearby_places api0 [] site0).value = .dictN [] ∧
    (get_nearby_places api0 [] site0).fetches = 0 ∧
    ((get_nearby_places api0 [] site0).cache).lookup "No Zip" = some (.dictN []) ∧
    (get_nearby_places api0 (get_nearby_places api0 [] site0).cache site0).value =
      .dictN [] ∧
    (get_nearby_places api0 (get_nearby_places api0 [] site0).cache site0).fetches = 0 :=
  no_zip_short_circuit api0 [] site0 site0 rfl rfl rfl

/-- C8: for a proximity query whose response lacks a `searchResults`
collection or whose `searchResults` array is empty, the enricher returns
the empty ranked mapping after one network call, caches it under the postal
code, and a repeat of the same query returns that empty mapping from the
cache with no further network call. -/
theorem empty_search_results_cached (api : String → ApiResponse) (cache : Cache)
    (site : NationalSite) (hz : site.zipcode ≠ "No Zip")
    (hc : cache.lookup site.zipcode = none)
    (ha : api site.zipcode = .noSearchResults ∨ api site.zipcode = .searchResults []) :
    (get_nearby_places api cache site).value = .dictN [] ∧
    (get_nearby_places api cache site).fetches = 1 ∧
    ((get_nearby_places api cache site).cache).lookup site.zipcode = some (.dictN []) ∧
    (get_nearby_places api (get_nearby_places api cache site).cache site).value =
      .dictN [] ∧
    (get_nearby_places api (get_nearby_places api cache site).cache site).fetches = 0 := by
  have h1 : get_nearby_places api cache site =
      ⟨.dictN [], cache.insert site.zipcode (.dictN []), 1, 1⟩ := by
    rcases ha with ha | ha
    · simp [get_nearby_places, hc, hz, ha]
    · simp [get_nearby_places, hc, hz, ha, field_dict_from]
  have h2 : (cache.insert site.zipcode (PyVal.dictN [])).lookup site.zipcode =
      some (.dictN []) := Cache.lookup_insert_self ..
  have h3 : get_nearby_places api (cache.insert site.zipcode (.dictN [])) site =
      ⟨.dictN [], cache.insert site.zipcode (.dictN []), 0, 0⟩ :=
    get_nearby_places_hit api h2
  exact ⟨by rw [h1], by rw [h1], by rw [h1]; exact h2, by rw [h1, h3], by rw [h1, h3]⟩

/-- C8 witness: a no-result response for the zip code 49931 on the empty
cache. -/
theorem empty_search_results_cached_witness :
    (get_nearby_places api0 [] site49931).value = .dictN [] ∧
    (get_nearby_places api0 [] site49931).fetches = 1 ∧
    ((get_nearby_places api0 [] site49931).cache).lookup site49931.zipcode =
      some (.dictN []) ∧
    (get_nearby_places api0 (get_nearby_places api0 [] site49931).cache site49931).value =
      .dictN [] ∧
    (get_nearby_places api0 (get_nearby_places api0 [] site49931).cache site49931).fetches = 0 :=
  empty_search_results_cached api0 [] site49931 (by decide) rfl (Or.inl rfl)

/-- C9: for every region-listing page, `get_sites_for_state` returns one
facility record per heading href, in page order: the result equals the map
of the per-heading extraction over the page's heading hrefs, so in
particular its length equals the number of headings. -/
theorem get_sites_for_state_page_order (fetch : String → String)
    (soupOf : PyVal → SiteSoup) (links : PyVal → List String)
    (cache : Cache) (surl : String) :
    (get_sites_for_state fetch soupOf links cache surl).value =
      (links (state_page_val fetch cache surl)).map
        (fun h => siteOf fetch soupOf (cache_after_page fetch cache surl)
          ("https://www.nps.gov" ++ h)) ∧
    (get_sites_for_state fetch soupOf links cache surl).value.length =
      (links (state_page_val fetch cache surl)).length := by
  refine ⟨get_sites_for_state_value fetch soupOf links cache surl, ?_⟩
  rw [get_sites_for_state_value fetch soupOf links cache surl, List.length_map]

/-- C10 counterexample: with the Michigan state page cached but its one
park detail page not cached, `get_sites_for_state` on the cached state URL
still calls `save_cache` and changes the in-memory cache, refuting "on a
cache hit, no operation modifies the cache". -/
theorem get_sites_for_state_hit_still_saves :
    (get_sites_for_state fetch0 soupOf0 links0 cacheMi
      "https://www.nps.gov/state/mi/index.htm").saves = 1 ∧
    (get_sites_for_state fetch0 soupOf0 links0 cacheMi
      "https://www.nps.gov/state/mi/index.htm").cache ≠ cacheMi :=
  ⟨rfl, by decide⟩

/-- C10 (amended): on a cache hit `get_site_instance` and
`get_nearby_places` leave the cache unchanged and never call `save_cache`;
`get_sites_for_state` does so provided every park detail URL on the cached
state page is also cached (otherwise the nested `get_site_instance` calls
write and save). -/
theorem cache_hit_frame (fetch : String → String) (soupOf : PyVal → SiteSoup)
    (links : PyVal → List String) (api : String → ApiResponse)
    (cache : Cache) (site : NationalSite) (url surl : String) (v : PyVal) :
    (cache.lookup url = some v →
      (get_site_instance fetch soupOf cache url).cache = cache ∧
      (get_site_instance fetch soupOf cache url).saves = 0) ∧
    (cache.lookup site.zipcode = some v →
      (get_nearby_places api cache site).cache = cache ∧
      (get_nearby_places api cache site).saves = 0) ∧
    (cache.lookup surl = some v →
      (∀ x ∈ links v, (cache.lookup ("https://www.nps.gov" ++ x)).isSome) →
      (get_sites_for_state fetch soupOf links cache surl).cache = cache ∧
      (get_sites_for_state fetch soupOf links cache surl).saves = 0 ∧
      (get_sites_for_state fetch soupOf links cache surl).fetches = 0) := by
  refine ⟨fun h => ?_, fun h => ?_, fun h hall => ?_⟩
  · rw [get_site_instance_hit fetch soupOf h]
    exact ⟨rfl, rfl⟩
  · rw [get_nearby_places_hit api h]
    exact ⟨rfl, rfl⟩
  · rw [get_sites_for_state_hit fetch soupOf links h]
    have hl := sites_loop_all_hit fetch soupOf (links v) cache hall
    exact ⟨hl.1, hl.2.2, hl.2.1⟩

/-- C10 witness: the amended frame statement at a cache holding the three
hit keys and a state page with no park headings. -/
theorem cache_hit_frame_witness :
    ((get_site_instance fetch0 soupOf0 cacheW "49931").cache = cacheW ∧
      (get_site_instance fetch0 soupOf0 cacheW "49931").saves = 0) ∧
    ((get_nearby_places api0 cacheW site49931).cache = cacheW ∧
      (get_nearby_places api0 cacheW site49931).saves = 0) ∧
    ((get_sites_for_state fetch0 soupOf0 links1 cacheW "49931").cache = cacheW ∧
      (get_sites_for_state fetch0 soupOf0 links1 cacheW "49931").saves = 0 ∧
      (get_sites_for_state fetch0 soupOf0 links1 cacheW "49931").fetches = 0) := by
  have h := cache_hit_frame fetch0 soupOf0 links1 api0 cacheW site49931
    "49931" "49931" (.str "x")
  exact ⟨h.1 rfl, h.2.1 rfl, h.2.2 rfl (fun x hx => by simp [links1] at hx)⟩
